import Mathlib

/-!
Verification development for the platformio-helpers repository.

The repository consists of three Python modules:

* `platformio_helpers/__init__.py` — path resolution inside a Conda
  environment (current layout and deprecated `<=0.5` layout) and listing of
  available build environments;
* `platformio_helpers/develop.py` — `link`/`unlink` of a working firmware
  source tree into the environment (directory junctions, hard links);
* `platformio_helpers/upload.py` — uploading a pre-built firmware binary via
  an external command, with a per-invocation temporary directory.

The embedding below is a shallow one: filesystem paths are lists of path
segments, filesystem-mutating functions become explicit state passing on
record types whose fields are exactly the locations the source code reads
and writes, and Python exceptions become an `Except` error type.  Process
invocations (`conda install`, `conda develop`, the external upload command)
are outside the filesystem model; the spec itself scopes them out.
-/

/-- A filesystem path, as a list of path segments. -/
abbrev FsPath := List String

/-- Render a path the way Python string-formats a path object (segments
joined by the separator).  Used only where the source interpolates a path
into a string (error messages, `UploadError` fields). -/
def pathStr (p : FsPath) : String :=
  "/" ++ String.intercalate "/" p

/-- A filesystem node at one location, as far as the source distinguishes
them: a regular file (hard links to the same file share the inode), a real
directory, or a directory junction / symbolic link with its target path. -/
inductive Node where
  | file (inode : Nat)
  | dir
  | junction (target : FsPath)
deriving DecidableEq, Repr

/-- Fields carried by the `UploadError` exception (upload.py:18-23).  The
constructor signature in the source is `UploadError(command, working_dir)`:
the FIRST positional argument is bound to `command` and the SECOND to
`working_dir`. -/
structure UploadError where
  command : String
  working_dir : String
deriving DecidableEq, Repr

/-- The Python exceptions the embedded code can raise.

* `nameError` — `raise NameError(...)` (__init__.py:119);
* `valueError` — `raise ValueError(...)` (upload.py:130-131); the source
  interpolates the candidate-name list into the message string, the
  embedding keeps the list itself;
* `ioError` — `raise IOError(...)` (upload.py:124);
* `stringRaise` — `raise f'...'` of a plain string (__init__.py:30,50);
  Python 3 refuses to raise a non-exception value, so this surfaces as
  `TypeError: exceptions must derive from BaseException` and the recorded
  message is lost; the embedding records the string operand;
* `isADirectoryError` — `os.unlink` applied to a real directory;
* `fileExistsError` — creating a junction at an already-existing path;
* `osError` — other OS-level failures (copies, process start);
* `uploadError` — `raise UploadError(...)` (upload.py:232-236). -/
inductive PyErr where
  | nameError (msg : String)
  | valueError (candidates : List String)
  | ioError (msg : String)
  | stringRaise (msg : String)
  | isADirectoryError (name : String)
  | fileExistsError (name : String)
  | osError (msg : String)
  | uploadError (e : UploadError)
deriving DecidableEq, Repr

/-- Whether a Python call returns normally (`true`) or raises (`false`). -/
def exceptOk (x : Except PyErr α) : Bool :=
  match x with
  | .ok _ => true
  | .error _ => false

/-! ## Path Resolver (`platformio_helpers/__init__.py`)

Each function receives the environment root (the value of
`ch.conda_prefix()`) explicitly.  The deprecated `<=0.5` functions also
receive the operating-system identifier (the value of `platform.system()`);
the current-layout functions do not branch on it, exactly as in the source.
The results are `Except`-valued to record which functions can raise. -/

/-- The three operating-system identifiers recognized by the deprecated
path functions (__init__.py:26,28,45,47). -/
def recognizedSystems : List String := ["Linux", "Darwin", "Windows"]

/-- `conda_arduino_include_path` (__init__.py:54-69): current layout, a
single `return` of `<root>/share/platformio/include` on all platforms;
never raises. -/
def conda_arduino_include_path (root : FsPath) : Except PyErr FsPath :=
  .ok (root ++ ["share", "platformio", "include"])

/-- `conda_bin_path` (__init__.py:72-88): current layout, a single `return`
of `<root>/share/platformio/bin` on all platforms; never raises. -/
def conda_bin_path (root : FsPath) : Except PyErr FsPath :=
  .ok (root ++ ["share", "platformio", "bin"])

/-- `conda_arduino_include_path_05` (__init__.py:14-30): deprecated layout.
On Linux/Darwin returns `<root>/include/Arduino`, on Windows
`<root>/Library/include/Arduino`; otherwise executes
`raise f'Unsupported platform: {platform.system()}'` (__init__.py:30). -/
def conda_arduino_include_path_05 (system : String) (root : FsPath) :
    Except PyErr FsPath :=
  if system = "Linux" ∨ system = "Darwin" then
    .ok (root ++ ["include", "Arduino"])
  else if system = "Windows" then
    .ok (root ++ ["Library", "include", "Arduino"])
  else
    .error (.stringRaise ("Unsupported platform: " ++ system))

/-- `conda_bin_path_05` (__init__.py:33-51): deprecated layout.  On
Linux/Darwin the prefix is `<root>`, on Windows `<root>/Library`, otherwise
`raise f'Unsupported platform: ...'` (__init__.py:50); on success returns
`<prefix>/bin/platformio`. -/
def conda_bin_path_05 (system : String) (root : FsPath) :
    Except PyErr FsPath :=
  if system = "Linux" ∨ system = "Darwin" then
    .ok (root ++ ["bin", "platformio"])
  else if system = "Windows" then
    .ok (root ++ ["Library", "bin", "platformio"])
  else
    .error (.stringRaise ("Unsupported platform: " ++ system))

/-! ## Environment Lister (`available_environments`, __init__.py:91-125)

The filesystem is abstracted to the listing of the one directory the
function inspects: `conda_bin_path()/<project_name>`.  `none` means the
directory does not exist (`project_bin_dir.isdir()` is false). -/

/-- One immediate entry of a project binaries directory: a subdirectory
(a build environment) or a plain file. -/
inductive BinEntry where
  | dir (name : String)
  | file (name : String)
deriving DecidableEq, Repr

/-- Names of the subdirectory entries, in listing order — the model of
`project_bin_dir.dirs()` (names only), which skips plain files. -/
def dirNamesOf (entries : List BinEntry) : List String :=
  entries.filterMap fun e =>
    match e with
    | .dir n => some n
    | .file _ => none

/-- `available_environments` (__init__.py:91-125).  `listing` is the
contents of `conda_bin_path(root)/<pname>` (`none` if not a directory).
If the directory is missing, raises `NameError` (__init__.py:119);
otherwise returns the sorted subdirectory names (__init__.py:125). -/
def available_environments (root : FsPath) (pname : String)
    (listing : Option (List BinEntry)) : Except PyErr (List String) :=
  match listing with
  | none =>
      .error (.nameError ("No PlatformIO project named `" ++ pname ++
        "` found in `" ++ pathStr (root ++ ["share", "platformio", "bin"]) ++ "`"))
  | some entries =>
      .ok (List.insertionSort (· ≤ ·) (dirNamesOf entries))

/-! ## Upload Orchestrator: environment resolution
(`upload_conda`, upload.py:86-132)

`cur` / `dep` are the listings of `conda_bin_path()/<pname>` and
`conda_bin_path_05()/<pname>` (`none` if `isdir()` is false).  The model
covers the resolution of the project binaries directory and of the
environment name; the delegated `upload(...)` call receives the resolved
environment name, which the model returns. -/

/-- The layout-fallback search of upload.py:119-124: try the current
layout, then the deprecated one; the `for/else` raises `IOError` if
neither directory exists. -/
def projectBins (cur dep : Option (List BinEntry)) : Option (List BinEntry) :=
  match cur with
  | some entries => some entries
  | none => dep

/-- `upload_conda` (upload.py:86-132), up to and including environment
resolution.  With `envName` omitted: if the project binaries directory has
exactly one subdirectory, select it (upload.py:127-128); otherwise raise
`ValueError` listing the subdirectory names (upload.py:130-131). -/
def upload_conda (pname : String) (cur dep : Option (List BinEntry))
    (envName : Option String) : Except PyErr String :=
  match projectBins cur dep with
  | none => .error (.ioError ("No binaries found for project `" ++ pname ++ "`."))
  | some entries =>
      match envName with
      | some e => .ok e
      | none =>
          if (dirNamesOf entries).length = 1 then
            .ok (dirNamesOf entries).headI
          else
            .error (.valueError (dirNamesOf entries))

/-! ## Upload Orchestrator: `upload` (upload.py:135-239)

The state the function mutates is the process working directory and the
set of temporary directories in existence.  The body of the `try` block
(upload.py:201-236) first changes into the temporary directory and then
either completes, raises during one of the copy/invocation steps, or
handles a non-zero exit status; in every case the `finally` block
(upload.py:237-239) restores the original working directory and removes
the temporary directory. -/

/-- Which step of the `try` block raises, if any: the configuration-file
copy (upload.py:208), the build-tree copy (upload.py:210), or the external
command invocation (upload.py:227). -/
inductive FailStep where
  | copyIni
  | copyTree
  | invoke
deriving DecidableEq, Repr

/-- Inputs of one `upload` invocation, together with the behaviour of its
environment: the exit status returned by the external command and whether
one of the fallible steps raises instead. -/
structure UploadCfg where
  condaRoot : FsPath
  windows : Bool
  envName : String
  extraArgs : List String
  returncode : Int
  onError : Bool
  failAt : Option FailStep
deriving DecidableEq, Repr

/-- Process-level state read and written by `upload`: the current working
directory and the temporary directories currently existing. -/
structure ProcState where
  cwd : FsPath
  temps : List FsPath
deriving DecidableEq, Repr

/-- The command line assembled at upload.py:219-223: the wrapper script
path (`Scripts` on Windows, `bin` elsewhere) followed by the fixed
`pio run -e <env> -t upload -t nobuild` arguments and the extra
caller-supplied arguments. -/
def uploadCommand (cfg : UploadCfg) : List String :=
  pathStr (cfg.condaRoot ++
      [(if cfg.windows then "Scripts" else "bin"), "wrappers", ".conda-recipe", "run-in"]) ::
    "pio" :: "run" :: "-e" :: cfg.envName :: "-t" :: "upload" :: "-t" ::
    "nobuild" :: cfg.extraArgs

/-- Model of `subprocess.list2cmdline`: the argument list rendered as one
command-line string.  The source applies the same function at the print
site (upload.py:225) and inside the error construction (upload.py:232);
only that sameness matters to the claims, so quoting is not modelled. -/
def list2cmdline (args : List String) : String :=
  String.intercalate " " args

/-- How one `upload` invocation ends: normal completion, the `on_error`
callback invoked with an `UploadError` (and normal return), or an
exception propagated to the caller. -/
inductive UploadResult where
  | ok
  | callbackInvoked (e : UploadError)
  | raised (e : PyErr)
deriving DecidableEq, Repr

/-- Result of the `try`-block body (upload.py:201-236).  On a non-zero
exit status the source constructs `UploadError(tempdir,
sp.list2cmdline(command))` (upload.py:232): the temporary directory is
bound to the constructor's `command` parameter and the command line to its
`working_dir` parameter.  With an `on_error` callback the error is passed
to it and nothing is raised (upload.py:233-234); otherwise it is raised
(upload.py:236). -/
def uploadBodyResult (cfg : UploadCfg) (tempdir : FsPath) : UploadResult :=
  match cfg.failAt with
  | some .copyIni => .raised (.osError "copy of configuration file failed")
  | some .copyTree => .raised (.osError "copy of build tree failed")
  | some .invoke => .raised (.osError "command invocation failed")
  | none =>
      if cfg.returncode = 0 then
        .ok
      else
        let e : UploadError :=
          { command := pathStr tempdir
            working_dir := list2cmdline (uploadCommand cfg) }
        if cfg.onError then .callbackInvoked e else .raised (.uploadError e)

/-- `upload` (upload.py:197-239).  `tempdir` is the fresh directory
produced by `tmp.mkdtemp` (upload.py:198).  The original working directory
is recorded (upload.py:199); the `try` body runs after `os.chdir(tempdir)`
(upload.py:204) and mutates no other modelled state; the `finally` block
(upload.py:237-239) runs on every exit path, restoring the working
directory and deleting the temporary directory. -/
def upload (cfg : UploadCfg) (tempdir : FsPath) (st : ProcState) :
    UploadResult × ProcState :=
  let original := st.cwd
  let st1 : ProcState := { st with temps := tempdir :: st.temps }
  let st2 : ProcState := { st1 with cwd := tempdir }
  let res := uploadBodyResult cfg tempdir
  (res, { st2 with cwd := original, temps := st2.temps.erase tempdir })

/-! ## Link Manager (`platformio_helpers/develop.py`)

The filesystem state is split into the working source tree and the
environment tree; the record fields are exactly the locations `link`
(develop.py:75-106) and `unlink` (develop.py:148-186) read or write.  The
Conda package-management steps (develop.py:56-71, 111, 190) are process
invocations and are outside the filesystem model, as in the spec's scope.

Hard-link identity is modelled by inodes: the working tree's
`platformio.ini` and each file under `lib/` carry an inode, and a
hard-linked copy in the environment is a `Node.file` with the same inode.
Junction identity is the target path. -/

/-- One immediate entry of the working `lib` directory: a file (with its
inode) or a subdirectory. -/
inductive LibEntry where
  | file (name : String) (inode : Nat)
  | dir (name : String)
deriving DecidableEq, Repr

/-- Name of a `lib` entry. -/
def LibEntry.name : LibEntry → String
  | .file n _ => n
  | .dir n => n

/-- The working source tree: whether `<working_dir>/.pioenvs` exists, the
inode of `<working_dir>/platformio.ini` (the claims presuppose a working
directory containing a `platformio.ini`), and the contents of
`<working_dir>/lib` (`none` when `lib` is absent, so that
`working_lib_dir.isdir()` is false). -/
structure WorkTree where
  pioenvs : Bool
  iniInode : Nat
  lib : Option (List LibEntry)
deriving DecidableEq, Repr

/-- The environment-root tree, at the locations the Link Manager touches,
for the package under consideration:

* `fwBin` / `fwConfig` — `conda_bin_path()/<package>` and
  `conda_bin_path()/<package>/platformio.ini` (current layout);
* `fwBin05` / `fwConfig05` — the same under the deprecated
  `conda_bin_path_05()` layout;
* `includeDir` / `includeEntries` — whether `conda_arduino_include_path()`
  exists and its immediate entries (name, node);
* `includeEntries05` — the immediate entries of
  `conda_arduino_include_path_05()`. -/
structure EnvTree where
  fwBin : Option Node
  fwConfig : Option Node
  fwBin05 : Option Node
  fwConfig05 : Option Node
  includeDir : Bool
  includeEntries : List (String × Node)
  includeEntries05 : List (String × Node)
deriving DecidableEq, Repr

/-- The full modelled filesystem state. -/
structure World where
  work : WorkTree
  env : EnvTree
deriving DecidableEq, Repr

/-- `<working_dir>/.pioenvs`, the junction target used at develop.py:83. -/
def pioenvsPath (workingDir : FsPath) : FsPath :=
  workingDir ++ [".pioenvs"]

/-- `<working_dir>/lib/<name>`, the junction target used at
develop.py:106. -/
def libEntryPath (workingDir : FsPath) (name : String) : FsPath :=
  workingDir ++ ["lib", name]

/-- Look a name up in a directory listing. -/
def lookupEntry (es : List (String × Node)) (n : String) : Option Node :=
  match es with
  | [] => none
  | (m, v) :: rest => if m = n then some v else lookupEntry rest n

/-- Bind a name to a node in a directory listing, replacing any existing
binding in place (creation appends). -/
def setEntry (es : List (String × Node)) (n : String) (v : Node) :
    List (String × Node) :=
  match es with
  | [] => [(n, v)]
  | (m, u) :: rest => if m = n then (n, v) :: rest else (m, u) :: setEntry rest n v

/-- Names of the file entries of a `lib` listing, in order. -/
def libFileNames (entries : List LibEntry) : List String :=
  entries.filterMap fun e =>
    match e with
    | .file n _ => some n
    | .dir _ => none

/-- Names of the subdirectory entries of a `lib` listing, in order. -/
def libDirNames (entries : List LibEntry) : List String :=
  entries.filterMap fun e =>
    match e with
    | .file _ _ => none
    | .dir n => some n

/-- The node a successful `link` establishes at
`conda_arduino_include_path()/<entry name>` for one working `lib` entry: a
hard link sharing the file's inode (develop.py:101), or a junction to the
`lib` subdirectory (develop.py:106). -/
def entryNode (workingDir : FsPath) : LibEntry → Node
  | .file _ i => .file i
  | .dir n => .junction (libEntryPath workingDir n)

/-- The loop over `working_lib_dir.files()` (develop.py:97-101): for each
FILE of the working `lib` directory, if the same-named target exists it is
removed with `os.unlink` — which raises `IsADirectoryError` if the target
is a real directory — and the file is hard-linked there. -/
def linkLibFiles (entries : List LibEntry) (es : List (String × Node)) :
    Except PyErr (List (String × Node)) :=
  match entries with
  | [] => .ok es
  | .dir _ :: rest => linkLibFiles rest es
  | .file n i :: rest =>
      match lookupEntry es n with
      | some .dir => .error (.isADirectoryError n)
      | _ => linkLibFiles rest (setEntry es n (.file i))

/-- The loop over `working_lib_dir.dirs()` (develop.py:102-106): for each
SUBDIRECTORY of the working `lib` directory, a same-named target that is a
junction or symbolic link is removed first; the junction is then created,
which fails if a non-link target (plain file or real directory) is still
in the way. -/
def linkLibDirs (workingDir : FsPath) (entries : List LibEntry)
    (es : List (String × Node)) : Except PyErr (List (String × Node)) :=
  match entries with
  | [] => .ok es
  | .file _ _ :: rest => linkLibDirs workingDir rest es
  | .dir n :: rest =>
      match lookupEntry es n with
      | some (.junction _) =>
          linkLibDirs workingDir rest (setEntry es n (.junction (libEntryPath workingDir n)))
      | none =>
          linkLibDirs workingDir rest (setEntry es n (.junction (libEntryPath workingDir n)))
      | some (.file _) => .error (.fileExistsError n)
      | some .dir => .error (.fileExistsError n)

/-- `link` (develop.py:75-106), filesystem part.

* develop.py:79-83: if `conda_bin_path()/<package>` does not exist, create
  `<working_dir>/.pioenvs` (`makedirs_p`) and create the junction from it;
  an existing entry is left untouched, whatever it is.
* develop.py:85-87: if `conda_bin_path()/<package>/platformio.ini` does
  not exist, hard-link the working `platformio.ini` there; an existing
  entry is left untouched, whatever it is.
* develop.py:95-106: only if the working `lib` directory exists: ensure
  `conda_arduino_include_path()` exists (`makedirs_p`), then run the file
  and subdirectory loops. -/
def linkModel (workingDir : FsPath) (w : World) : Except PyErr World :=
  let step1 :=
    match w.env.fwBin with
    | some nd => (w.work, some nd)
    | none => ({ w.work with pioenvs := true },
               some (Node.junction (pioenvsPath workingDir)))
  let work1 := step1.1
  let fwBin1 := step1.2
  let fwConfig1 :=
    match w.env.fwConfig with
    | some nd => some nd
    | none => some (Node.file w.work.iniInode)
  match w.work.lib with
  | none =>
      .ok { work := work1,
            env := { w.env with fwBin := fwBin1, fwConfig := fwConfig1 } }
  | some entries =>
      match linkLibFiles entries w.env.includeEntries with
      | .error e => .error e
      | .ok es1 =>
          match linkLibDirs workingDir entries es1 with
          | .error e => .error e
          | .ok es2 =>
              let env2 := { w.env with fwBin := fwBin1, fwConfig := fwConfig1 }
              .ok { work := work1,
                    env := { env2 with includeDir := true, includeEntries := es2 } }

/-- A Python `for ... else` loop: the body either breaks out with a value
(`some`) or completes (`none`); the `else` clause runs only when no
iteration breaks. -/
def pyForElse (xs : List α) (body : α → Option β) (onElse : β) : β :=
  match xs.findSome? body with
  | some b => b
  | none => onElse

/-- The include-directory search of `unlink` (develop.py:171-178):

    for include_path_i in (current, deprecated):
        for package_name_j in (package, package + '-dev'):
            include_dir_j = include_path_i.joinpath(package_name_j)
            if include_dir_j.exists():
                break
    else:
        include_dir = None

The `break` at develop.py:176 exits only the INNER loop over package
names; the outer loop over layouts is never broken, so its `else` clause
always runs, and `include_dir` — assigned nowhere else — is always
`None`. -/
def unlinkIncludeSearch (env : EnvTree) (pkg : String) : Option Unit :=
  pyForElse [env.includeEntries, env.includeEntries05]
    (fun layer =>
      -- Inner loop (develop.py:173-176): its break carries nothing out of
      -- the outer iteration, so the outer body never produces a break.
      let _inner := pyForElse [pkg, pkg ++ "-dev"]
        (fun n => if (lookupEntry layer n).isSome then some n else none)
        pkg
      (none : Option Unit))
    -- Outer else clause (develop.py:177-178): include_dir = None.
    none

/-- `unlink` (develop.py:115-191), filesystem part.

* develop.py:153-158: search `conda_bin_path()/<package>` then the
  deprecated `conda_bin_path_05()/<package>`, stopping at the first layout
  where the directory exists; `for/else` leaves `fw_bin_dir = None` when
  neither exists.
* develop.py:160-164: if found, remove the configuration-file link (when
  present) and the binaries link, in the layout where they were found.
* develop.py:171-186: compute `include_dir` with the nested search
  (`unlinkIncludeSearch`); the removal loop at develop.py:182-186 runs
  only when `include_dir is not None`, i.e. never (see
  `unlinkIncludeSearch`), so the include entries are left untouched. -/
def unlinkModel (workingDir : FsPath) (pkg : String) (w : World) :
    Except PyErr World :=
  let binStep : Except PyErr EnvTree :=
    match w.env.fwBin with
    | some nd =>
        -- Found in the current layout (develop.py:155-156).
        match w.env.fwConfig with
        | some Node.dir => .error (.isADirectoryError "platformio.ini")
        | _ =>
            match nd with
            | Node.dir => .error (.isADirectoryError pkg)
            | _ => .ok { w.env with fwBin := none, fwConfig := none }
    | none =>
        match w.env.fwBin05 with
        | some nd =>
            -- Found in the deprecated layout (develop.py:153-156).
            match w.env.fwConfig05 with
            | some Node.dir => .error (.isADirectoryError "platformio.ini")
            | _ =>
                match nd with
                | Node.dir => .error (.isADirectoryError pkg)
                | _ => .ok { w.env with fwBin05 := none, fwConfig05 := none }
        | none =>
            -- Neither layout has the directory: fw_bin_dir is None and the
            -- removal is skipped (develop.py:157-158, 160).
            .ok w.env
  match binStep with
  | .error e => .error e
  | .ok env1 =>
      match unlinkIncludeSearch w.env pkg with
      | some _ =>
          -- Unreachable: the search always yields none (develop.py:177-178);
          -- the removal loop of develop.py:183-186 is dead code.
          .ok { w with env := env1 }
      | none =>
          .ok { w with env := env1 }

/-- Well-formedness of a working tree as a real directory listing: the
entry names of the `lib` directory are pairwise distinct. -/
def WorkTree.wf (work : WorkTree) : Prop :=
  match work.lib with
  | none => True
  | some entries => (entries.map LibEntry.name).Nodup

instance (work : WorkTree) : Decidable work.wf := by
  unfold WorkTree.wf
  cases work.lib
  · exact inferInstanceAs (Decidable True)
  · exact inferInstanceAs (Decidable _)

/-! ## Concrete evaluation states

Small concrete states used by the counterexamples and witnesses below: a
working directory containing a `platformio.ini` (inode 1) and a `lib`
directory with one header file (inode 2) and one library subdirectory,
linked into an initially empty environment root. -/

/-- A concrete working directory path. -/
def demoWd : FsPath := ["home", "user", "proj"]

/-- A concrete environment root path. -/
def demoRoot : FsPath := ["opt", "conda"]

/-- An empty environment root: nothing linked, in either layout. -/
def demoEnv0 : EnvTree :=
  { fwBin := none, fwConfig := none, fwBin05 := none, fwConfig05 := none,
    includeDir := false, includeEntries := [], includeEntries05 := [] }

/-- The working tree: `platformio.ini` (inode 1), no `.pioenvs` yet, and a
`lib` directory holding the file `util.h` (inode 2) and the subdirectory
`Lib1`. -/
def demoW : World :=
  { work := { pioenvs := false, iniInode := 1,
              lib := some [LibEntry.file "util.h" 2, LibEntry.dir "Lib1"] },
    env := demoEnv0 }

/-- The state `linkModel demoWd demoW` produces. -/
def demoLinked : World :=
  { work := { pioenvs := true, iniInode := 1,
              lib := some [LibEntry.file "util.h" 2, LibEntry.dir "Lib1"] },
    env := { fwBin := some (Node.junction ["home", "user", "proj", ".pioenvs"]),
             fwConfig := some (Node.file 1),
             fwBin05 := none,
             fwConfig05 := none,
             includeDir := true,
             includeEntries := [("util.h", Node.file 2),
               ("Lib1", Node.junction ["home", "user", "proj", "lib", "Lib1"])],
             includeEntries05 := [] } }

/-- The state `unlinkModel demoWd "proj" demoLinked` produces: the
binaries and configuration links are gone, the include-directory links
remain. -/
def demoAfter : World :=
  { work := { pioenvs := true, iniInode := 1,
              lib := some [LibEntry.file "util.h" 2, LibEntry.dir "Lib1"] },
    env := { fwBin := none,
             fwConfig := none,
             fwBin05 := none,
             fwConfig05 := none,
             includeDir := true,
             includeEntries := [("util.h", Node.file 2),
               ("Lib1", Node.junction ["home", "user", "proj", "lib", "Lib1"])],
             includeEntries05 := [] } }

/-- A state whose binaries link exists but is stale: a junction to a
DIFFERENT working tree's `.pioenvs`.  The working tree has no `lib`
directory. -/
def demoStaleW : World :=
  { work := { pioenvs := true, iniInode := 1, lib := none },
    env := { demoEnv0 with fwBin := some (Node.junction ["mnt", "other", ".pioenvs"]) } }

/-- The state `linkModel demoWd demoStaleW` produces: the stale junction
is left in place. -/
def demoStaleLinked : World :=
  { work := { pioenvs := true, iniInode := 1, lib := none },
    env := { demoEnv0 with
             fwBin := some (Node.junction ["mnt", "other", ".pioenvs"]),
             fwConfig := some (Node.file 1) } }

/-- A concrete temporary directory for the upload model. -/
def demoTempdir : FsPath := ["tmp", "platformio-demo-abc123"]

/-- A concrete process state for the upload model. -/
def demoProc : ProcState := { cwd := ["home", "user"], temps := [] }

/-- An upload invocation whose external command exits with status 1 and
which has no error callback. -/
def demoCfg : UploadCfg :=
  { condaRoot := demoRoot, windows := false, envName := "uno",
    extraArgs := [], returncode := 1, onError := false, failAt := none }

/-- The same invocation with an error callback supplied. -/
def demoCfgCb : UploadCfg := { demoCfg with onError := true }

/-- A project binaries listing with three build environments and one plain
file, in one iteration order. -/
def demoEnvsA : List BinEntry :=
  [BinEntry.dir "uno", BinEntry.file "notes.txt",
   BinEntry.dir "teensy31", BinEntry.dir "due"]

/-- The same listing in another iteration order. -/
def demoEnvsB : List BinEntry :=
  [BinEntry.dir "due", BinEntry.dir "teensy31",
   BinEntry.file "notes.txt", BinEntry.dir "uno"]

/-! ## Lemmas about directory-listing updates -/

/-- Looking up a name after binding it. -/
theorem lookupEntry_setEntry (es : List (String × Node)) (n : String)
    (v : Node) (m : String) :
    lookupEntry (setEntry es n v) m = if m = n then some v else lookupEntry es m := by
  induction es with
  | nil =>
      by_cases h : m = n
      · subst h
        simp [setEntry, lookupEntry]
      · have h2 : ¬n = m := fun he => h he.symm
        simp [setEntry, lookupEntry, h, h2]
  | cons p rest ih =>
      obtain ⟨k, u⟩ := p
      by_cases hk : k = n
      · subst hk
        by_cases h : m = k
        · subst h
          simp [setEntry, lookupEntry]
        · have h2 : ¬k = m := fun he => h he.symm
          simp [setEntry, lookupEntry, h, h2]
      · by_cases h1 : k = m
        · subst h1
          simp [setEntry, lookupEntry, hk]
        · simp [setEntry, lookupEntry, hk, h1, ih]

/-- Rebinding a name to the node it already has is the identity. -/
theorem setEntry_self (es : List (String × Node)) (n : String) (v : Node)
    (h : lookupEntry es n = some v) : setEntry es n v = es := by
  induction es with
  | nil => simp [lookupEntry] at h
  | cons p rest ih =>
      obtain ⟨k, u⟩ := p
      by_cases hk : k = n
      · subst hk
        simp [lookupEntry] at h
        simp [setEntry, h]
      · simp [lookupEntry, hk] at h
        simp [setEntry, hk, ih h]

theorem libFileNames_sublist (entries : List LibEntry) :
    (libFileNames entries).Sublist (entries.map LibEntry.name) := by
  induction entries with
  | nil => simp [libFileNames]
  | cons e rest ih =>
      cases e with
      | file n i => simpa [libFileNames, LibEntry.name] using ih.cons₂ n
      | dir n => simpa [libFileNames, LibEntry.name] using ih.cons n

theorem libDirNames_sublist (entries : List LibEntry) :
    (libDirNames entries).Sublist (entries.map LibEntry.name) := by
  induction entries with
  | nil => simp [libDirNames]
  | cons e rest ih =>
      cases e with
      | file n i => simpa [libDirNames, LibEntry.name] using ih.cons n
      | dir n => simpa [libDirNames, LibEntry.name] using ih.cons₂ n

theorem mem_libDirNames {entries : List LibEntry} {n : String} :
    n ∈ libDirNames entries ↔ LibEntry.dir n ∈ entries := by
  simp only [libDirNames, List.mem_filterMap]
  constructor
  · rintro ⟨e, he, hme⟩
    cases e with
    | file m i => simp at hme
    | dir m => simp at hme; subst hme; exact he
  · intro h
    exact ⟨LibEntry.dir n, h, rfl⟩

theorem mem_libFileNames {entries : List LibEntry} {n : String} :
    n ∈ libFileNames entries ↔ ∃ i, LibEntry.file n i ∈ entries := by
  simp only [libFileNames, List.mem_filterMap]
  constructor
  · rintro ⟨e, he, hme⟩
    cases e with
    | file m i => simp at hme; subst hme; exact ⟨i, he⟩
    | dir m => simp at hme
  · rintro ⟨i, h⟩
    exact ⟨LibEntry.file n i, h, rfl⟩

/-- In a listing with pairwise-distinct names, a name cannot be both a
file's and a subdirectory's. -/
theorem file_name_not_dir_name {entries : List LibEntry} {n : String} {i : Nat}
    (hnd : (entries.map LibEntry.name).Nodup)
    (hm : LibEntry.file n i ∈ entries) : n ∉ libDirNames entries := by
  intro hd
  have hdm : LibEntry.dir n ∈ entries := mem_libDirNames.mp hd
  have := List.inj_on_of_nodup_map hnd hm hdm (by simp [LibEntry.name])
  simp at this

/-! ## Lemmas about the two `lib`-linking loops -/

theorem linkLibFiles_cons_dir (k : String) (rest : List LibEntry)
    (es : List (String × Node)) :
    linkLibFiles (LibEntry.dir k :: rest) es = linkLibFiles rest es := rfl

theorem linkLibDirs_cons_file (wd : FsPath) (k : String) (j : Nat)
    (rest : List LibEntry) (es : List (String × Node)) :
    linkLibDirs wd (LibEntry.file k j :: rest) es = linkLibDirs wd rest es := rfl

/-- Successful processing of a file entry always proceeds by (removing any
existing target and) rebinding the name to the hard link. -/
theorem linkLibFiles_cons_file_inv (n : String) (i : Nat) (rest : List LibEntry)
    (es es' : List (String × Node))
    (h : linkLibFiles (LibEntry.file n i :: rest) es = .ok es') :
    linkLibFiles rest (setEntry es n (Node.file i)) = .ok es' := by
  rcases hl : lookupEntry es n with _ | nd
  · simpa only [linkLibFiles, hl] using h
  · cases nd with
    | file j => simpa only [linkLibFiles, hl] using h
    | dir =>
        simp only [linkLibFiles, hl] at h
        exact Except.noConfusion h
    | junction t => simpa only [linkLibFiles, hl] using h

/-- Successful processing of a subdirectory entry always proceeds by
(removing any existing link target and) rebinding the name to the
junction. -/
theorem linkLibDirs_cons_dir_inv (wd : FsPath) (n : String) (rest : List LibEntry)
    (es es' : List (String × Node))
    (h : linkLibDirs wd (LibEntry.dir n :: rest) es = .ok es') :
    linkLibDirs wd rest (setEntry es n (Node.junction (libEntryPath wd n))) = .ok es' := by
  rcases hl : lookupEntry es n with _ | nd
  · simpa only [linkLibDirs, hl] using h
  · cases nd with
    | file j =>
        simp only [linkLibDirs, hl] at h
        exact Except.noConfusion h
    | dir =>
        simp only [linkLibDirs, hl] at h
        exact Except.noConfusion h
    | junction t => simpa only [linkLibDirs, hl] using h

/-- The file loop does not touch names that are not file names of the
working `lib` directory. -/
theorem linkLibFiles_frame : ∀ (entries : List LibEntry) (es es' : List (String × Node)),
    linkLibFiles entries es = .ok es' →
    ∀ m, m ∉ libFileNames entries → lookupEntry es' m = lookupEntry es m := by
  intro entries
  induction entries with
  | nil =>
      intro es es' h m _
      simp only [linkLibFiles] at h
      injection h with h2
      rw [h2]
  | cons e rest ih =>
      intro es es' h m hm
      cases e with
      | dir k =>
          rw [linkLibFiles_cons_dir] at h
          exact ih es es' h m (by simpa [libFileNames] using hm)
      | file k j =>
          simp only [libFileNames, List.filterMap_cons, List.mem_cons, not_or] at hm
          have h' := linkLibFiles_cons_file_inv k j rest es es' h
          rw [ih _ es' h' m (by simpa [libFileNames] using hm.2),
            lookupEntry_setEntry, if_neg hm.1]

/-- The subdirectory loop does not touch names that are not subdirectory
names of the working `lib` directory. -/
theorem linkLibDirs_frame (wd : FsPath) :
    ∀ (entries : List LibEntry) (es es' : List (String × Node)),
    linkLibDirs wd entries es = .ok es' →
    ∀ m, m ∉ libDirNames entries → lookupEntry es' m = lookupEntry es m := by
  intro entries
  induction entries with
  | nil =>
      intro es es' h m _
      simp only [linkLibDirs] at h
      injection h with h2
      rw [h2]
  | cons e rest ih =>
      intro es es' h m hm
      cases e with
      | file k j =>
          rw [linkLibDirs_cons_file] at h
          exact ih es es' h m (by simpa [libDirNames] using hm)
      | dir k =>
          simp only [libDirNames, List.filterMap_cons, List.mem_cons, not_or] at hm
          have h' := linkLibDirs_cons_dir_inv wd k rest es es' h
          rw [ih _ es' h' m (by simpa [libDirNames] using hm.2),
            lookupEntry_setEntry, if_neg hm.1]

/-- After a successful file loop, every file of the working `lib`
directory has its hard link in place. -/
theorem linkLibFiles_mem : ∀ (entries : List LibEntry) (es es' : List (String × Node)),
    (libFileNames entries).Nodup → linkLibFiles entries es = .ok es' →
    ∀ n i, LibEntry.file n i ∈ entries → lookupEntry es' n = some (Node.file i) := by
  intro entries
  induction entries with
  | nil =>
      intro es es' _ _ n i hm
      simp at hm
  | cons e rest ih =>
      intro es es' hnd h n i hm
      cases e with
      | dir k =>
          rw [linkLibFiles_cons_dir] at h
          rcases List.mem_cons.mp hm with heq | hmr
          · simp at heq
          · exact ih es es' (by simpa [libFileNames] using hnd) h n i hmr
      | file k j =>
          simp only [libFileNames, List.filterMap_cons] at hnd
          have hk_not : k ∉ libFileNames rest := (List.nodup_cons.mp hnd).1
          have hnd' : (libFileNames rest).Nodup := (List.nodup_cons.mp hnd).2
          have h' := linkLibFiles_cons_file_inv k j rest es es' h
          rcases List.mem_cons.mp hm with heq | hmr
          · obtain ⟨rfl, rfl⟩ : n = k ∧ i = j := by
              cases heq
              exact ⟨rfl, rfl⟩
            rw [linkLibFiles_frame rest _ es' h' n hk_not,
              lookupEntry_setEntry, if_pos rfl]
          · exact ih _ es' hnd' h' n i hmr

/-- After a successful subdirectory loop, every subdirectory of the
working `lib` directory has its junction in place. -/
theorem linkLibDirs_mem (wd : FsPath) :
    ∀ (entries : List LibEntry) (es es' : List (String × Node)),
    (libDirNames entries).Nodup → linkLibDirs wd entries es = .ok es' →
    ∀ n, LibEntry.dir n ∈ entries →
      lookupEntry es' n = some (Node.junction (libEntryPath wd n)) := by
  intro entries
  induction entries with
  | nil =>
      intro es es' _ _ n hm
      simp at hm
  | cons e rest ih =>
      intro es es' hnd h n hm
      cases e with
      | file k j =>
          rw [linkLibDirs_cons_file] at h
          rcases List.mem_cons.mp hm with heq | hmr
          · simp at heq
          · exact ih es es' (by simpa [libDirNames] using hnd) h n hmr
      | dir k =>
          simp only [libDirNames, List.filterMap_cons] at hnd
          have hk_not : k ∉ libDirNames rest := (List.nodup_cons.mp hnd).1
          have hnd' : (libDirNames rest).Nodup := (List.nodup_cons.mp hnd).2
          have h' := linkLibDirs_cons_dir_inv wd k rest es es' h
          rcases List.mem_cons.mp hm with heq | hmr
          · obtain rfl : n = k := by
              cases heq
              rfl
            rw [linkLibDirs_frame wd rest _ es' h' n hk_not,
              lookupEntry_setEntry, if_pos rfl]
          · exact ih _ es' hnd' h' n hmr

/-- When every file of the working `lib` directory is already linked, the
file loop leaves the listing unchanged. -/
theorem linkLibFiles_id : ∀ (entries : List LibEntry) (es : List (String × Node)),
    (∀ n i, LibEntry.file n i ∈ entries → lookupEntry es n = some (Node.file i)) →
    linkLibFiles entries es = .ok es := by
  intro entries
  induction entries with
  | nil => intro es _; rfl
  | cons e rest ih =>
      intro es h
      cases e with
      | dir k =>
          rw [linkLibFiles_cons_dir]
          exact ih es (fun n i hm => h n i (List.mem_cons_of_mem _ hm))
      | file k j =>
          have hk := h k j (List.mem_cons_self _ _)
          simp only [linkLibFiles, hk]
          rw [setEntry_self es k _ hk]
          exact ih es (fun n i hm => h n i (List.mem_cons_of_mem _ hm))

/-- When every subdirectory of the working `lib` directory is already
linked, the subdirectory loop leaves the listing unchanged. -/
theorem linkLibDirs_id (wd : FsPath) : ∀ (entries : List LibEntry) (es : List (String × Node)),
    (∀ n, LibEntry.dir n ∈ entries →
      lookupEntry es n = some (Node.junction (libEntryPath wd n))) →
    linkLibDirs wd entries es = .ok es := by
  intro entries
  induction entries with
  | nil => intro es _; rfl
  | cons e rest ih =>
      intro es h
      cases e with
      | file k j =>
          rw [linkLibDirs_cons_file]
          exact ih es (fun n hm => h n (List.mem_cons_of_mem _ hm))
      | dir k =>
          have hk := h k (List.mem_cons_self _ _)
          simp only [linkLibDirs, hk]
          rw [setEntry_self es k _ hk]
          exact ih es (fun n hm => h n (List.mem_cons_of_mem _ hm))

/-- Combined postcondition of the two loops: with pairwise-distinct entry
names, every entry of the working `lib` directory ends up linked to its
working-tree counterpart. -/
theorem link_loops_post (wd : FsPath) (entries : List LibEntry)
    (es es1 es2 : List (String × Node))
    (hnd : (entries.map LibEntry.name).Nodup)
    (hf : linkLibFiles entries es = .ok es1)
    (hd : linkLibDirs wd entries es1 = .ok es2) :
    ∀ e ∈ entries, lookupEntry es2 e.name = some (entryNode wd e) := by
  intro e he
  cases e with
  | file n i =>
      have h1 : lookupEntry es1 n = some (Node.file i) :=
        linkLibFiles_mem entries es es1
          ((libFileNames_sublist entries).nodup hnd) hf n i he
      have h2 : n ∉ libDirNames entries := file_name_not_dir_name hnd he
      show lookupEntry es2 n = some (Node.file i)
      rw [linkLibDirs_frame wd entries es1 es2 hd n h2]
      exact h1
  | dir n =>
      exact linkLibDirs_mem wd entries es1 es2
        ((libDirNames_sublist entries).nodup hnd) hd n he

/-! ## Claim theorems -/

/-- Claim C1 (code bug): running `link` and then immediately `unlink` is
claimed to restore the environment root to its pre-`link` state.  On a
concrete run from an empty environment root with a working `lib` directory
holding one file and one subdirectory, `unlink` removes the binaries link
and the configuration-file link but leaves every link created inside
`includePath()` in place, because `include_dir` is always `None`
(develop.py:172-178): the environment root is NOT restored. -/
theorem c1_unlink_leaves_include_links :
    linkModel demoWd demoW = .ok demoLinked ∧
    unlinkModel demoWd "proj" demoLinked = .ok demoAfter ∧
    demoAfter.env.fwBin = none ∧
    demoAfter.env.fwConfig = none ∧
    lookupEntry demoAfter.env.includeEntries "util.h" = some (Node.file 2) ∧
    lookupEntry demoAfter.env.includeEntries "Lib1" =
      some (Node.junction (libEntryPath demoWd "Lib1")) ∧
    demoAfter.env ≠ demoW.env :=
  ⟨rfl, rfl, rfl, rfl, rfl, rfl, by decide⟩

/-- The include-directory search of `unlink` never finds anything: the
`for/else` else-clause of develop.py:177-178 always runs, so the removal
loop of develop.py:182-186 is unreachable. -/
theorem unlinkIncludeSearch_eq_none (env : EnvTree) (pkg : String) :
    unlinkIncludeSearch env pkg = none := rfl

/-- Claim C2 (code bug): on a non-zero exit status, `upload` is claimed to
construct an `UploadError` whose temporary-directory field is the
temporary directory and whose command field is the command line.  The
call `UploadError(tempdir, sp.list2cmdline(command))` (upload.py:232)
binds the temporary directory to the `command` parameter and the command
line to the `working_dir` parameter — the two fields are swapped.  The
callback half of the claim does hold: with `on_error` supplied the error
is delivered to the callback and nothing is raised. -/
theorem c2_upload_error_fields_swapped :
    (upload demoCfg demoTempdir demoProc).1 =
      .raised (.uploadError { command := pathStr demoTempdir,
                              working_dir := list2cmdline (uploadCommand demoCfg) }) ∧
    pathStr demoTempdir ≠ list2cmdline (uploadCommand demoCfg) ∧
    (upload demoCfgCb demoTempdir demoProc).1 =
      .callbackInvoked { command := pathStr demoTempdir,
                         working_dir := list2cmdline (uploadCommand demoCfgCb) } :=
  ⟨rfl, by decide, rfl⟩

/-- Claim C3 (confirmed): on every exit path of `upload` — normal
completion, a raised `UploadError`, an error delivered to the callback, or
an exception during copying or invocation — the `finally` block restores
the original working directory and deletes the per-invocation temporary
directory, so the process state after the call equals the state before
it. -/
theorem c3_upload_cleanup (cfg : UploadCfg) (tempdir : FsPath) (st : ProcState) :
    (upload cfg tempdir st).2 = st := by
  show ProcState.mk st.cwd ((tempdir :: st.temps).erase tempdir) = st
  rw [List.erase_cons_head]

/-- Claim C4 (corrected), counterexample: for the unrecognized identifier
"Java", the CURRENT-layout `includePath()`/`binPath()` do not fail — they
return the platform-independent suffix — contradicting the claim that
both layouts fail with `UnsupportedPlatformError` on every unrecognized
identifier. -/
theorem c4_current_layout_counterexample :
    "Java" ∉ recognizedSystems ∧
    conda_arduino_include_path demoRoot =
      .ok (demoRoot ++ ["share", "platformio", "include"]) ∧
    conda_bin_path demoRoot = .ok (demoRoot ++ ["share", "platformio", "bin"]) ∧
    exceptOk (conda_arduino_include_path demoRoot) = true ∧
    exceptOk (conda_bin_path demoRoot) = true :=
  ⟨by decide, rfl, rfl, rfl, rfl⟩

/-- Claim C4 (corrected), amended: the current-layout `includePath()` and
`binPath()` are platform-independent — they return the fixed suffix
appended to the environment root for EVERY operating-system identifier and
never fail.  Only the deprecated-layout functions fail on an unrecognized
identifier, and the failure is the raise of a plain string (a `TypeError`
in Python 3), not a dedicated exception type; on the three recognized
identifiers they return their platform-specific suffixes. -/
theorem c4_path_resolver_amended (system : String) (root : FsPath)
    (h : system ∉ recognizedSystems) :
    conda_arduino_include_path root =
      .ok (root ++ ["share", "platformio", "include"]) ∧
    conda_bin_path root = .ok (root ++ ["share", "platformio", "bin"]) ∧
    conda_arduino_include_path_05 system root =
      .error (.stringRaise ("Unsupported platform: " ++ system)) ∧
    conda_bin_path_05 system root =
      .error (.stringRaise ("Unsupported platform: " ++ system)) ∧
    conda_arduino_include_path_05 "Linux" root = .ok (root ++ ["include", "Arduino"]) ∧
    conda_arduino_include_path_05 "Darwin" root = .ok (root ++ ["include", "Arduino"]) ∧
    conda_arduino_include_path_05 "Windows" root =
      .ok (root ++ ["Library", "include", "Arduino"]) ∧
    conda_bin_path_05 "Linux" root = .ok (root ++ ["bin", "platformio"]) ∧
    conda_bin_path_05 "Darwin" root = .ok (root ++ ["bin", "platformio"]) ∧
    conda_bin_path_05 "Windows" root = .ok (root ++ ["Library", "bin", "platformio"]) := by
  have h' : ¬(system = "Linux" ∨ system = "Darwin" ∨ system = "Windows") := by
    simpa [recognizedSystems] using h
  push_neg at h'
  obtain ⟨h1, h2, h3⟩ := h'
  exact ⟨rfl, rfl, by simp [conda_arduino_include_path_05, h1, h2, h3],
    by simp [conda_bin_path_05, h1, h2, h3], rfl, rfl, rfl, rfl, rfl, rfl⟩

/-- Witness for the amended C4 at the concrete identifier "Java". -/
theorem c4_path_resolver_amended_witness :
    "Java" ∉ recognizedSystems ∧
    conda_arduino_include_path_05 "Java" demoRoot =
      .error (.stringRaise ("Unsupported platform: " ++ "Java")) ∧
    conda_bin_path_05 "Java" demoRoot =
      .error (.stringRaise ("Unsupported platform: " ++ "Java")) :=
  ⟨by decide, (c4_path_resolver_amended "Java" demoRoot (by decide)).2.2.1,
    (c4_path_resolver_amended "Java" demoRoot (by decide)).2.2.2.1⟩

/-- Claim C5 (corrected), counterexample: a stale binaries link — a
junction to a DIFFERENT working tree's `.pioenvs` — is NOT removed by
`link`; the `if not fw_bin_dir.exists()` guard (develop.py:79) skips the
whole creation step and leaves the stale link pointing elsewhere,
contradicting the claimed invariant for the project binaries link. -/
theorem c5_stale_link_counterexample :
    linkModel demoWd demoStaleW = .ok demoStaleLinked ∧
    demoStaleLinked.env.fwBin = some (Node.junction ["mnt", "other", ".pioenvs"]) ∧
    Node.junction ["mnt", "other", ".pioenvs"] ≠ Node.junction (pioenvsPath demoWd) :=
  ⟨rfl, rfl, by decide⟩

/-- Claim C8 (corrected), counterexample: `link` DOES mutate the working
tree — when the binaries link is absent it creates the `.pioenvs`
directory inside the working directory (develop.py:80-82), contradicting
the claim that the working tree is never mutated. -/
theorem c8_pioenvs_created_counterexample :
    linkModel demoWd demoW = .ok demoLinked ∧
    demoW.work.pioenvs = false ∧
    demoLinked.work.pioenvs = true ∧
    demoLinked.work ≠ demoW.work :=
  ⟨rfl, rfl, rfl, by decide⟩

/-- Claim C5 (corrected), amended: the stale-link invariant holds only for
the `includePath()` entries — after a successful `link`, every entry of
the working `lib` directory is linked to its working-tree counterpart,
any pre-existing same-named link having been replaced (develop.py:97-106).
The project binaries link and the configuration-file link are instead
created only when absent: an existing entry is left untouched even when it
points elsewhere (develop.py:79-87). -/
theorem c5_link_target_invariant (wd : FsPath) (w : World)
    (entries : List LibEntry) (w' : World)
    (hlib : w.work.lib = some entries)
    (hnd : (entries.map LibEntry.name).Nodup)
    (h : linkModel wd w = .ok w') :
    (∀ e ∈ entries, lookupEntry w'.env.includeEntries e.name = some (entryNode wd e)) ∧
    w'.env.fwBin = some (w.env.fwBin.getD (Node.junction (pioenvsPath wd))) ∧
    w'.env.fwConfig = some (w.env.fwConfig.getD (Node.file w.work.iniInode)) := by
  rcases hf : linkLibFiles entries w.env.includeEntries with e1 | es1
  · cases hb : w.env.fwBin <;> simp [linkModel, hb, hlib, hf] at h
  · rcases hd : linkLibDirs wd entries es1 with e2 | es2
    · cases hb : w.env.fwBin <;> simp [linkModel, hb, hlib, hf, hd] at h
    · have hpost := link_loops_post wd entries _ es1 es2 hnd hf hd
      cases hb : w.env.fwBin with
      | none =>
          cases hc : w.env.fwConfig with
          | none =>
              simp only [linkModel, hb, hc, hlib, hf, hd, Except.ok.injEq] at h
              subst h
              exact ⟨hpost, rfl, rfl⟩
          | some c =>
              simp only [linkModel, hb, hc, hlib, hf, hd, Except.ok.injEq] at h
              subst h
              exact ⟨hpost, rfl, rfl⟩
      | some b =>
          cases hc : w.env.fwConfig with
          | none =>
              simp only [linkModel, hb, hc, hlib, hf, hd, Except.ok.injEq] at h
              subst h
              exact ⟨hpost, rfl, rfl⟩
          | some c =>
              simp only [linkModel, hb, hc, hlib, hf, hd, Except.ok.injEq] at h
              subst h
              exact ⟨hpost, rfl, rfl⟩

/-- Witness for the amended C5 on the concrete linked state. -/
theorem c5_link_target_invariant_witness :
    lookupEntry demoLinked.env.includeEntries "util.h" = some (Node.file 2) ∧
    lookupEntry demoLinked.env.includeEntries "Lib1" =
      some (Node.junction (libEntryPath demoWd "Lib1")) ∧
    demoLinked.env.fwBin = some (Node.junction (pioenvsPath demoWd)) ∧
    demoLinked.env.fwConfig = some (Node.file 1) := by
  have h := c5_link_target_invariant demoWd demoW
    [LibEntry.file "util.h" 2, LibEntry.dir "Lib1"] demoLinked rfl (by decide) rfl
  exact ⟨h.1 (LibEntry.file "util.h" 2) (by decide),
    h.1 (LibEntry.dir "Lib1") (by decide), h.2.1, h.2.2⟩

/-- Claim C6 (confirmed): with the environment name omitted, the upload
orchestrator selects the unique build-environment subdirectory when
exactly one exists, and otherwise raises the ambiguity error (`ValueError`
in the source, the spec's `AmbiguousEnvironmentError`) listing all
candidate names (upload.py:126-131). -/
theorem c6_resolve_environment (pname : String) (cur dep : Option (List BinEntry))
    (entries : List BinEntry) (h : projectBins cur dep = some entries) :
    upload_conda pname cur dep none =
      if (dirNamesOf entries).length = 1 then .ok (dirNamesOf entries).headI
      else .error (.valueError (dirNamesOf entries)) := by
  simp only [upload_conda, h]

/-- Witness for C6: one candidate directory (plus a plain file), selected
automatically. -/
theorem c6_resolve_environment_witness :
    upload_conda "demo" (some [BinEntry.dir "uno", BinEntry.file "readme.md"])
      none none = .ok "uno" :=
  (c6_resolve_environment "demo" (some [BinEntry.dir "uno", BinEntry.file "readme.md"])
    none [BinEntry.dir "uno", BinEntry.file "readme.md"] rfl).trans rfl

/-- Claim C7 (confirmed): `availableEnvironments` returns exactly the
lexicographically sorted list of the immediate subdirectory names —
sorted, a permutation of the listed names, and independent of the
filesystem iteration order — and raises the project-not-found error
(`NameError` in the source, the spec's `ProjectNotFoundError`) when the
project binaries directory does not exist. -/
theorem c7_available_environments (root : FsPath) (pname : String)
    (entries entries2 : List BinEntry) (hperm : entries.Perm entries2) :
    available_environments root pname (some entries) =
      .ok (List.insertionSort (· ≤ ·) (dirNamesOf entries)) ∧
    (List.insertionSort (· ≤ ·) (dirNamesOf entries)).Sorted (· ≤ ·) ∧
    (List.insertionSort (· ≤ ·) (dirNamesOf entries)).Perm (dirNamesOf entries) ∧
    available_environments root pname (some entries) =
      available_environments root pname (some entries2) ∧
    available_environments root pname none =
      .error (.nameError ("No PlatformIO project named `" ++ pname ++
        "` found in `" ++ pathStr (root ++ ["share", "platformio", "bin"]) ++ "`")) := by
  refine ⟨rfl, List.sorted_insertionSort _ _, List.perm_insertionSort _ _, ?_, rfl⟩
  have hp : (dirNamesOf entries).Perm (dirNamesOf entries2) := hperm.filterMap _
  have hs : List.insertionSort (· ≤ ·) (dirNamesOf entries) =
      List.insertionSort (· ≤ ·) (dirNamesOf entries2) :=
    List.eq_of_perm_of_sorted
      (((List.perm_insertionSort _ _).trans hp).trans
        (List.perm_insertionSort _ _).symm)
      (List.sorted_insertionSort _ _) (List.sorted_insertionSort _ _)
  simp only [available_environments, hs]

/-- Witness for C7 on two iteration orders of the spec's example listing:
both produce the sorted list. -/
theorem c7_available_environments_witness :
    available_environments demoRoot "demo-project" (some demoEnvsA) =
      available_environments demoRoot "demo-project" (some demoEnvsB) ∧
    available_environments demoRoot "demo-project" (some demoEnvsA) =
      .ok ["due", "teensy31", "uno"] := by
  constructor
  · exact (c7_available_environments demoRoot "demo-project" demoEnvsA demoEnvsB
      (by decide)).2.2.2.1
  · have h1 : ("due" : String) ≤ "teensy31" := by
      rw [String.le_iff_toList_le]
      decide
    have h2 : ("teensy31" : String) ≤ "uno" := by
      rw [String.le_iff_toList_le]
      decide
    have hsorted : (["due", "teensy31", "uno"] : List String).Sorted (· ≤ ·) := by
      refine List.sorted_cons.mpr ⟨?_, List.sorted_cons.mpr ⟨?_, List.sorted_singleton _⟩⟩
      · intro b hb
        rcases List.mem_cons.mp hb with rfl | hb2
        · exact h1
        · rw [List.mem_singleton] at hb2
          subst hb2
          exact h1.trans h2
      · intro b hb
        rw [List.mem_singleton] at hb
        subst hb
        exact h2
    have hperm : (List.insertionSort (· ≤ ·) (dirNamesOf demoEnvsA)).Perm
        ["due", "teensy31", "uno"] :=
      (List.perm_insertionSort _ _).trans (by decide)
    have hs : List.insertionSort (· ≤ ·) (dirNamesOf demoEnvsA) =
        ["due", "teensy31", "uno"] :=
      List.eq_of_perm_of_sorted hperm (List.sorted_insertionSort _ _) hsorted
    simp only [available_environments, hs]

/-- Claim C8 (corrected), amended: `link` never mutates the working tree
except that it creates the `.pioenvs` build-output directory under the
working directory when the binaries link is absent (develop.py:79-82); in
particular it leaves the working tree's configuration file and `lib`
directory untouched, and it does not fail when the working `lib`
directory is absent (develop.py:95 skips the linking loops). -/
theorem c8_link_work_frame (wd : FsPath) (w : World) :
    (∀ w', linkModel wd w = .ok w' →
      w'.work = { w.work with pioenvs := w.work.pioenvs || w.env.fwBin.isNone }) ∧
    (w.work.lib = none → exceptOk (linkModel wd w) = true) := by
  obtain ⟨⟨p, ii, lb⟩, fb, fc, fb5, fc5, idir, ies, ies5⟩ := w
  constructor
  · intro w' h
    cases fb with
    | none =>
        cases lb with
        | none =>
            simp only [linkModel, Except.ok.injEq] at h
            subst h
            simp
        | some entries =>
            rcases hf : linkLibFiles entries ies with e1 | es1
            · simp [linkModel, hf] at h
            · rcases hd : linkLibDirs wd entries es1 with e2 | es2
              · simp [linkModel, hf, hd] at h
              · simp only [linkModel, hf, hd, Except.ok.injEq] at h
                subst h
                simp
    | some b =>
        cases lb with
        | none =>
            simp only [linkModel, Except.ok.injEq] at h
            subst h
            simp
        | some entries =>
            rcases hf : linkLibFiles entries ies with e1 | es1
            · simp [linkModel, hf] at h
            · rcases hd : linkLibDirs wd entries es1 with e2 | es2
              · simp [linkModel, hf, hd] at h
              · simp only [linkModel, hf, hd, Except.ok.injEq] at h
                subst h
                simp
  · intro hl
    simp only at hl
    subst hl
    cases fb <;> simp [linkModel, exceptOk]

/-- Witness for the amended C8 on a concrete state without a `lib`
directory and with the binaries link present. -/
theorem c8_link_work_frame_witness :
    demoStaleLinked.work =
      { demoStaleW.work with
        pioenvs := demoStaleW.work.pioenvs || demoStaleW.env.fwBin.isNone } ∧
    exceptOk (linkModel demoWd demoStaleW) = true :=
  ⟨(c8_link_work_frame demoWd demoStaleW).1 demoStaleLinked rfl,
    (c8_link_work_frame demoWd demoStaleW).2 rfl⟩

/-- Claim C9 (confirmed): calling `link` twice produces the same state as
calling it once — on the second call the binaries junction and the
configuration hard link already exist and are skipped (develop.py:79,86),
and every `includePath()` entry is re-created to the identical state
(develop.py:97-106). -/
theorem c9_link_idempotent (wd : FsPath) (w w1 : World) (hwf : w.work.wf)
    (h : linkModel wd w = .ok w1) : linkModel wd w1 = .ok w1 := by
  cases hl : w.work.lib with
  | none =>
      cases hb : w.env.fwBin with
      | none =>
          cases hc : w.env.fwConfig with
          | none =>
              simp only [linkModel, hb, hc, hl, Except.ok.injEq] at h
              subst h
              simp [linkModel, hl]
          | some c =>
              simp only [linkModel, hb, hc, hl, Except.ok.injEq] at h
              subst h
              simp [linkModel, hl]
      | some b =>
          cases hc : w.env.fwConfig with
          | none =>
              simp only [linkModel, hb, hc, hl, Except.ok.injEq] at h
              subst h
              simp [linkModel, hl]
          | some c =>
              simp only [linkModel, hb, hc, hl, Except.ok.injEq] at h
              subst h
              simp [linkModel, hl]
  | some entries =>
      have hnd : (entries.map LibEntry.name).Nodup := by
        simpa only [WorkTree.wf, hl] using hwf
      rcases hf : linkLibFiles entries w.env.includeEntries with e1 | es1
      · cases hb : w.env.fwBin <;> simp [linkModel, hb, hl, hf] at h
      · rcases hd : linkLibDirs wd entries es1 with e2 | es2
        · cases hb : w.env.fwBin <;> simp [linkModel, hb, hl, hf, hd] at h
        · have hpost := link_loops_post wd entries _ es1 es2 hnd hf hd
          have hfid : linkLibFiles entries es2 = .ok es2 :=
            linkLibFiles_id entries es2 (fun n i hm => by
              simpa [LibEntry.name, entryNode] using hpost (LibEntry.file n i) hm)
          have hdid : linkLibDirs wd entries es2 = .ok es2 :=
            linkLibDirs_id wd entries es2 (fun n hm => by
              simpa [LibEntry.name, entryNode] using hpost (LibEntry.dir n) hm)
          cases hb : w.env.fwBin with
          | none =>
              cases hc : w.env.fwConfig with
              | none =>
                  simp only [linkModel, hb, hc, hl, hf, hd, Except.ok.injEq] at h
                  subst h
                  simp [linkModel, hl, hfid, hdid]
              | some c =>
                  simp only [linkModel, hb, hc, hl, hf, hd, Except.ok.injEq] at h
                  subst h
                  simp [linkModel, hl, hfid, hdid]
          | some b =>
              cases hc : w.env.fwConfig with
              | none =>
                  simp only [linkModel, hb, hc, hl, hf, hd, Except.ok.injEq] at h
                  subst h
                  simp [linkModel, hl, hfid, hdid]
              | some c =>
                  simp only [linkModel, hb, hc, hl, hf, hd, Except.ok.injEq] at h
                  subst h
                  simp [linkModel, hl, hfid, hdid]

/-- Witness for C9 on the concrete demo run. -/
theorem c9_link_idempotent_witness :
    linkModel demoWd demoLinked = .ok demoLinked :=
  c9_link_idempotent demoWd demoW demoLinked (by decide) rfl

/-- Claim C10 (confirmed): with the environment name omitted and the
project binaries directory existing but containing no build-environment
subdirectories, the orchestrator raises the ambiguity error with an EMPTY
candidate list — it neither selects an environment nor raises the
project-not-found error, and plain files in the directory are not counted
as candidates (upload.py:126-131, `project_bin_dir.dirs()`). -/
theorem c10_zero_candidates (pname : String) (cur dep : Option (List BinEntry))
    (entries : List BinEntry) (h : projectBins cur dep = some entries)
    (hz : dirNamesOf entries = []) :
    upload_conda pname cur dep none = .error (.valueError []) := by
  simp [upload_conda, h, hz]

/-- Witness for C10: the directory is found in the deprecated layout and
contains one plain file and no subdirectories. -/
theorem c10_zero_candidates_witness :
    upload_conda "demo" none (some [BinEntry.file "notes.txt"]) none =
      .error (.valueError []) :=
  c10_zero_candidates "demo" none (some [BinEntry.file "notes.txt"])
    [BinEntry.file "notes.txt"] rfl rfl
